import Mathlib

/-!
Verification of the marshalling layer of the Sundials/ML binding
(`cvode_ml.c`, `cvode_serial.c`, `cvode_ml_nvec.c`, `ida_ml_nvec.c`).

The definitions below are a shallow embedding of the binding's C stubs.
Pointers are represented by `Nat` identifiers, machine integers by `Int`,
`realtype` by `Float`, OCaml exceptions raised by the stubs by `HostExn`,
and a stub that can raise is a function into `Except HostExn _`.
Calls into the external SUNDIALS library (which is not part of this
repository) are represented by their documented observable behaviour:
either as oracle parameters giving the return flag of the call, or by
small state-transition functions on the modelled `cvode_mem` slots.
-/

namespace SundialsML

/-! ### CVODE return flags

Numeric values of the `CV_*` constants from the external SUNDIALS header
`cvode/cvode.h` (SUNDIALS 2.x), which the stubs compare against. -/

def CV_SUCCESS : Int := 0
def CV_TSTOP_RETURN : Int := 1
def CV_ROOT_RETURN : Int := 2
def CV_TOO_MUCH_WORK : Int := -1
def CV_TOO_MUCH_ACC : Int := -2
def CV_ERR_FAILURE : Int := -3
def CV_CONV_FAILURE : Int := -4
def CV_LINIT_FAIL : Int := -5
def CV_LSETUP_FAIL : Int := -6
def CV_LSOLVE_FAIL : Int := -7
def CV_RHSFUNC_FAIL : Int := -8
def CV_FIRST_RHSFUNC_ERR : Int := -9
def CV_REPTD_RHSFUNC_ERR : Int := -10
def CV_UNREC_RHSFUNC_ERR : Int := -11
def CV_RTFUNC_FAIL : Int := -12
def CV_MEM_FAIL : Int := -20
def CV_MEM_NULL : Int := -21
def CV_ILL_INPUT : Int := -22
def CV_NO_MALLOC : Int := -23
def CV_BAD_K : Int := -24
def CV_BAD_T : Int := -25
def CV_BAD_DKY : Int := -26
def CV_TOO_CLOSE : Int := -27

/-- itask value `CV_NORMAL` from `cvode/cvode.h`. -/
def CV_NORMAL : Int := 1

/-- itask value `CV_ONE_STEP` from `cvode/cvode.h`. -/
def CV_ONE_STEP : Int := 2

/-- Host-language (OCaml) exceptions raised by the binding's stubs.
The first seventeen constructors are the constant exceptions registered
under the names `cvode_IllInput`, `cvode_TooClose`, ... and raised via
`caml_raise_constant(*caml_named_value(...))`; `Failure` models
`caml_failwith` and `InvalidArgument` models `caml_invalid_argument`. -/
inductive HostExn where
  | IllInput
  | TooClose
  | TooMuchWork
  | TooMuchAccuracy
  | ErrFailure
  | ConvergenceFailure
  | LinearInitFailure
  | LinearSetupFailure
  | LinearSolveFailure
  | RhsFuncFailure
  | FirstRhsFuncError
  | RepeatedRhsFuncError
  | UnrecoverableRhsFuncError
  | RootFuncFailure
  | BadK
  | BadT
  | BadDky
  | Failure (msg : String)
  | InvalidArgument (msg : String)
deriving DecidableEq

/-- CVodeGetReturnFlagName from the external SUNDIALS library: maps a return
flag to its printed name.  Only the flags that can actually reach the
default branch of `check_flag` matter here, and the claims never depend on
the produced text, so the model covers the three flags named in the
source comment and returns "NONE" (SUNDIALS's answer for an unknown flag)
otherwise. -/
def cvodeGetReturnFlagName (flag : Int) : String :=
  if flag = CV_MEM_NULL then "CV_MEM_NULL"
  else if flag = CV_MEM_FAIL then "CV_MEM_FAIL"
  else if flag = CV_NO_MALLOC then "CV_NO_MALLOC"
  else "NONE"

/-- check_flag from `cvode_serial.c` (lines 787-872); the body of
`cvode_ml_check_flag` in `cvode_ml.c` (lines 149-234) is line-for-line
identical.  The `to_free` argument only releases scratch memory before
raising and does not affect which exception is raised, so it is omitted.
Success flags return normally (`Except.ok`); each tabulated error flag
raises its registered constant exception; any other flag falls to the
`default:` branch, which raises `Failure` via `caml_failwith`. -/
def check_flag (call : String) (flag : Int) : Except HostExn Unit :=
  if flag = CV_SUCCESS ∨ flag = CV_ROOT_RETURN ∨ flag = CV_TSTOP_RETURN then .ok ()
  else if flag = CV_ILL_INPUT then .error .IllInput
  else if flag = CV_TOO_CLOSE then .error .TooClose
  else if flag = CV_TOO_MUCH_WORK then .error .TooMuchWork
  else if flag = CV_TOO_MUCH_ACC then .error .TooMuchAccuracy
  else if flag = CV_ERR_FAILURE then .error .ErrFailure
  else if flag = CV_CONV_FAILURE then .error .ConvergenceFailure
  else if flag = CV_LINIT_FAIL then .error .LinearInitFailure
  else if flag = CV_LSETUP_FAIL then .error .LinearSetupFailure
  else if flag = CV_LSOLVE_FAIL then .error .LinearSolveFailure
  else if flag = CV_RHSFUNC_FAIL then .error .RhsFuncFailure
  else if flag = CV_FIRST_RHSFUNC_ERR then .error .FirstRhsFuncError
  else if flag = CV_REPTD_RHSFUNC_ERR then .error .RepeatedRhsFuncError
  else if flag = CV_UNREC_RHSFUNC_ERR then .error .UnrecoverableRhsFuncError
  else if flag = CV_RTFUNC_FAIL then .error .RootFuncFailure
  else if flag = CV_BAD_K then .error .BadK
  else if flag = CV_BAD_T then .error .BadT
  else if flag = CV_BAD_DKY then .error .BadDky
  else .error (.Failure (call ++ ": " ++ cvodeGetReturnFlagName flag))

/-- Flags on which `check_flag` returns without raising. -/
def successFlags : List Int := [CV_SUCCESS, CV_ROOT_RETURN, CV_TSTOP_RETURN]

/-- The fixed flag-to-exception lookup table of `check_flag` /
`cvode_ml_check_flag`, in the order of the `switch` cases. -/
def cvodeExnTable : List (Int × HostExn) :=
  [(CV_ILL_INPUT, .IllInput),
   (CV_TOO_CLOSE, .TooClose),
   (CV_TOO_MUCH_WORK, .TooMuchWork),
   (CV_TOO_MUCH_ACC, .TooMuchAccuracy),
   (CV_ERR_FAILURE, .ErrFailure),
   (CV_CONV_FAILURE, .ConvergenceFailure),
   (CV_LINIT_FAIL, .LinearInitFailure),
   (CV_LSETUP_FAIL, .LinearSetupFailure),
   (CV_LSOLVE_FAIL, .LinearSolveFailure),
   (CV_RHSFUNC_FAIL, .RhsFuncFailure),
   (CV_FIRST_RHSFUNC_ERR, .FirstRhsFuncError),
   (CV_REPTD_RHSFUNC_ERR, .RepeatedRhsFuncError),
   (CV_UNREC_RHSFUNC_ERR, .UnrecoverableRhsFuncError),
   (CV_RTFUNC_FAIL, .RootFuncFailure),
   (CV_BAD_K, .BadK),
   (CV_BAD_T, .BadT),
   (CV_BAD_DKY, .BadDky)]

/-- C1: a flag-checking stub returns without raising on `CV_SUCCESS`,
`CV_ROOT_RETURN` and `CV_TSTOP_RETURN`; on every flag of the fixed lookup
table it raises exactly the tabulated host exception; and on every flag
outside both it raises `Failure`. -/
theorem check_flag_lookup_table (call : String) (flag : Int) :
    (flag ∈ successFlags → check_flag call flag = .ok ())
    ∧ (∀ e, (flag, e) ∈ cvodeExnTable → check_flag call flag = .error e)
    ∧ (flag ∉ successFlags → flag ∉ cvodeExnTable.map Prod.fst →
        ∃ msg, check_flag call flag = .error (.Failure msg)) := by
  refine ⟨?_, ?_, ?_⟩
  · intro h
    simp only [successFlags, List.mem_cons, List.not_mem_nil, or_false] at h
    rcases h with rfl | rfl | rfl <;> rfl
  · intro e he
    fin_cases he <;> rfl
  · intro hs ht
    have h1 : ¬(flag = CV_SUCCESS ∨ flag = CV_ROOT_RETURN ∨ flag = CV_TSTOP_RETURN) := by
      simpa [successFlags] using hs
    have h2 : ¬flag = CV_ILL_INPUT := by rintro rfl; exact ht (by decide)
    have h3 : ¬flag = CV_TOO_CLOSE := by rintro rfl; exact ht (by decide)
    have h4 : ¬flag = CV_TOO_MUCH_WORK := by rintro rfl; exact ht (by decide)
    have h5 : ¬flag = CV_TOO_MUCH_ACC := by rintro rfl; exact ht (by decide)
    have h6 : ¬flag = CV_ERR_FAILURE := by rintro rfl; exact ht (by decide)
    have h7 : ¬flag = CV_CONV_FAILURE := by rintro rfl; exact ht (by decide)
    have h8 : ¬flag = CV_LINIT_FAIL := by rintro rfl; exact ht (by decide)
    have h9 : ¬flag = CV_LSETUP_FAIL := by rintro rfl; exact ht (by decide)
    have h10 : ¬flag = CV_LSOLVE_FAIL := by rintro rfl; exact ht (by decide)
    have h11 : ¬flag = CV_RHSFUNC_FAIL := by rintro rfl; exact ht (by decide)
    have h12 : ¬flag = CV_FIRST_RHSFUNC_ERR := by rintro rfl; exact ht (by decide)
    have h13 : ¬flag = CV_REPTD_RHSFUNC_ERR := by rintro rfl; exact ht (by decide)
    have h14 : ¬flag = CV_UNREC_RHSFUNC_ERR := by rintro rfl; exact ht (by decide)
    have h15 : ¬flag = CV_RTFUNC_FAIL := by rintro rfl; exact ht (by decide)
    have h16 : ¬flag = CV_BAD_K := by rintro rfl; exact ht (by decide)
    have h17 : ¬flag = CV_BAD_T := by rintro rfl; exact ht (by decide)
    have h18 : ¬flag = CV_BAD_DKY := by rintro rfl; exact ht (by decide)
    refine ⟨call ++ ": " ++ cvodeGetReturnFlagName flag, ?_⟩
    unfold check_flag
    rw [if_neg h1, if_neg h2, if_neg h3, if_neg h4, if_neg h5, if_neg h6, if_neg h7,
      if_neg h8, if_neg h9, if_neg h10, if_neg h11, if_neg h12, if_neg h13, if_neg h14,
      if_neg h15, if_neg h16, if_neg h17, if_neg h18]

/-- Witness for C1: `check_flag` evaluated on one success flag, one tabulated
flag, and one flag outside the table. -/
theorem check_flag_lookup_table_witness :
    check_flag "CVode" CV_SUCCESS = .ok ()
    ∧ check_flag "CVode" CV_ILL_INPUT = .error .IllInput
    ∧ ∃ msg, check_flag "CVode" CV_MEM_NULL = .error (.Failure msg) :=
  ⟨(check_flag_lookup_table "CVode" CV_SUCCESS).1 (by decide),
   (check_flag_lookup_table "CVode" CV_ILL_INPUT).2.1 _ (by decide),
   (check_flag_lookup_table "CVode" CV_MEM_NULL).2.2 (by decide) (by decide)⟩

/-! ### NVectors, bigarray wrappers and callback trampolines

Serial NVectors and OCaml bigarrays are represented by a storage
identifier (`dataPtr`, standing for the C data pointer) and a length.
`caml_ba_alloc(BIGARRAY_FLOAT, 1, NV_DATA_S(v), &len)` shares the
vector's data pointer with the new bigarray header, which the model
renders as copying `dataPtr` (never the elements). -/

/-- Serial N_Vector: data pointer plus `NV_LENGTH_S`. -/
structure NVector where
  dataPtr : Nat
  length : Nat
deriving DecidableEq

/-- One-dimensional float64 bigarray header: data pointer plus `dim[0]`. -/
structure BigArray where
  dataPtr : Nat
  dim : Nat
deriving DecidableEq

/-- wrap_nvector from `cvode_serial.c` (lines 211-220), identical to the
`WRAP_NVECTOR` macro of `cvode_ml_nvec.c` / `ida_ml_nvec.c` under
`CVODE_ML_BIGARRAYS` / `IDA_ML_BIGARRAYS`: allocates a bigarray header
over the vector's own storage (`NV_DATA_S(v)`), copying no element. -/
def wrap_nvector (v : NVector) : BigArray :=
  { dataPtr := v.dataPtr, dim := v.length }

/-- relinquish_nvector_wrapping from `cvode_serial.c` (lines 222-225),
identical to the `RELINQUISH_WRAPPEDNV` macro: sets the wrapper's
`dim[0]` to zero. -/
def relinquish_nvector_wrapping (v_ba : BigArray) : BigArray :=
  { v_ba with dim := 0 }

/-- vectorize_bigarray from `cvode_serial.c` (lines 227-234), identical to
the `NVECTORIZE_VAL` macro: `N_VMake_Serial` over the bigarray's own
data pointer. -/
def vectorize_bigarray (ba : BigArray) : NVector :=
  { dataPtr := ba.dataPtr, length := ba.dim }

/-- Host-language exceptions escaping a callback closure, as seen by
check_exception: the registered `cvode_RecoverableFailure` (resp.
`ida_RecoverableFailure`) or any other exception. -/
inductive MlExn where
  | RecoverableFailure
  | other (id : Nat)
deriving DecidableEq

/-- check_exception from `cvode_serial.c` (lines 191-207), line-identical in
`cvode_ml_nvec.c` (lines 78-94) and `ida_ml_nvec.c` (lines 115-131, with
the ida exception name): 0 when the callback result is not an exception,
1 when the escaping exception is the registered RecoverableFailure,
-1 for every other exception. -/
def check_exception {α : Type} (r : Except MlExn α) : Int :=
  match r with
  | .ok _ => 0
  | .error e => if e = MlExn.RecoverableFailure then 1 else -1

/-- Jacobian-argument record built by make_jac_arg (`cvode_serial.c` lines
310-322): time, wrapped `y`, wrapped `fy`, and a tmp payload (a single
wrapped vector or a triple, depending on the callback). -/
structure JacArg (τ : Type) where
  jac_t : Float
  jac_y : BigArray
  jac_fy : BigArray
  jac_tmp : τ

/-- make_jac_arg from `cvode_serial.c` (lines 310-322). -/
def make_jac_arg {τ : Type} (t : Float) (y fy : NVector) (tmp : τ) : JacArg τ :=
  { jac_t := t, jac_y := wrap_nvector y, jac_fy := wrap_nvector fy, jac_tmp := tmp }

/-- make_triple_tmp from `cvode_serial.c` (lines 324-334). -/
def make_triple_tmp (tmp1 tmp2 tmp3 : NVector) : BigArray × BigArray × BigArray :=
  (wrap_nvector tmp1, wrap_nvector tmp2, wrap_nvector tmp3)

/-- relinquish_jac_arg with `triple = 1` (`cvode_serial.c` lines 336-355):
invalidates the `y`, `fy` and three tmp wrappers; the returned list holds
the wrapper headers as they remain after the trampoline. -/
def relinquish_jac_arg3 (arg : JacArg (BigArray × BigArray × BigArray)) : List BigArray :=
  [relinquish_nvector_wrapping arg.jac_y,
   relinquish_nvector_wrapping arg.jac_fy,
   relinquish_nvector_wrapping arg.jac_tmp.1,
   relinquish_nvector_wrapping arg.jac_tmp.2.1,
   relinquish_nvector_wrapping arg.jac_tmp.2.2]

/-- relinquish_jac_arg with `triple = 0` (`cvode_serial.c` lines 336-355). -/
def relinquish_jac_arg1 (arg : JacArg BigArray) : List BigArray :=
  [relinquish_nvector_wrapping arg.jac_y,
   relinquish_nvector_wrapping arg.jac_fy,
   relinquish_nvector_wrapping arg.jac_tmp]

/-- Spils solve-argument record built by make_spils_solve_arg
(`cvode_serial.c` lines 455-472). -/
structure SpilsSolveArg where
  rhs : BigArray
  gamma : Float
  delta : Float
  left : Bool

/-- make_spils_solve_arg from `cvode_serial.c` (lines 455-472). -/
def make_spils_solve_arg (r : NVector) (gamma delta : Float) (lr : Int) : SpilsSolveArg :=
  { rhs := wrap_nvector r, gamma := gamma, delta := delta, left := lr == 1 }

/-- relinquish_spils_solve_arg from `cvode_serial.c` (lines 474-479). -/
def relinquish_spils_solve_arg (arg : SpilsSolveArg) : List BigArray :=
  [relinquish_nvector_wrapping arg.rhs]

/-! Callback trampolines from `cvode_serial.c` (resp. `cvode_ml_nvec.c`
under `CVODE_ML_BIGARRAYS`, where the code is the same up to how the
closure is fetched).  Each trampoline takes the registered host closure as
a function argument (its registration in the session is claim C4/C6
territory), wraps the NVector arguments, invokes the closure, invalidates
every wrapper it created, and returns `check_exception` of the closure's
outcome.  The model returns the integer handed back to SUNDIALS together
with the final states of the wrapper headers created by the call. -/

namespace Callback

/-- f, the right-hand-side trampoline (`cvode_serial.c` lines 242-265). -/
def f (closure_rhsfn : Float → BigArray → BigArray → Except MlExn Unit)
    (t : Float) (y ydot : NVector) : Int × List BigArray :=
  let y_ba := wrap_nvector y
  let ydot_ba := wrap_nvector ydot
  let r := closure_rhsfn t y_ba ydot_ba
  (check_exception r,
   [relinquish_nvector_wrapping y_ba, relinquish_nvector_wrapping ydot_ba])

/-- roots, the root-function trampoline (`cvode_serial.c` lines 267-285);
`gout_ba` is a bigarray allocated over the library's `gout` buffer with
length `num_roots`, zeroed directly after the callback. -/
def roots (closure_rootsfn : Float → BigArray → BigArray → Except MlExn Unit)
    (t : Float) (y : NVector) (gout : Nat) (num_roots : Nat) : Int × List BigArray :=
  let y_ba := wrap_nvector y
  let gout_ba : BigArray := { dataPtr := gout, dim := num_roots }
  let r := closure_rootsfn t y_ba gout_ba
  (check_exception r,
   [relinquish_nvector_wrapping y_ba, { gout_ba with dim := 0 }])

/-- errw, the error-weight trampoline (`cvode_ml_nvec.c` lines 137-152,
bigarray instantiation). -/
def errw (closure_errw : BigArray → BigArray → Except MlExn Unit)
    (y ewt : NVector) : Int × List BigArray :=
  let y_d := wrap_nvector y
  let ewt_d := wrap_nvector ewt
  let r := closure_errw y_d ewt_d
  (check_exception r,
   [relinquish_nvector_wrapping y_d, relinquish_nvector_wrapping ewt_d])

/-- jacfn, the dense-Jacobian trampoline (`cvode_serial.c` lines 357-384);
the `DlsMat` handle passed alongside is an opaque pointer (`Nat` here). -/
def jacfn
    (closure_jacfn : JacArg (BigArray × BigArray × BigArray) → Nat → Except MlExn Unit)
    (t : Float) (y fy : NVector) (jac : Nat)
    (tmp1 tmp2 tmp3 : NVector) : Int × List BigArray :=
  let arg := make_jac_arg t y fy (make_triple_tmp tmp1 tmp2 tmp3)
  let r := closure_jacfn arg jac
  (check_exception r, relinquish_jac_arg3 arg)

/-- bandjacfn, the banded-Jacobian trampoline (`cvode_serial.c` lines
386-417). -/
def bandjacfn
    (closure_bandjacfn :
      Int → Int → JacArg (BigArray × BigArray × BigArray) → Nat → Except MlExn Unit)
    (mupper mlower : Int) (t : Float) (y fy : NVector) (jac : Nat)
    (tmp1 tmp2 tmp3 : NVector) : Int × List BigArray :=
  let arg := make_jac_arg t y fy (make_triple_tmp tmp1 tmp2 tmp3)
  let r := closure_bandjacfn mupper mlower arg jac
  (check_exception r, relinquish_jac_arg3 arg)

/-- presetupfn, the preconditioner-setup trampoline (`cvode_serial.c` lines
419-448): `*jcurPtr` is overwritten with the closure's boolean result only
when no exception escaped. -/
def presetupfn
    (closure_presetupfn :
      JacArg (BigArray × BigArray × BigArray) → Bool → Float → Except MlExn Bool)
    (t : Float) (y fy : NVector) (jok : Bool) (jcur : Bool) (gamma : Float)
    (tmp1 tmp2 tmp3 : NVector) : Int × Bool × List BigArray :=
  let arg := make_jac_arg t y fy (make_triple_tmp tmp1 tmp2 tmp3)
  let r := closure_presetupfn arg jok gamma
  let jcur2 := match r with
    | .ok b => b
    | .error _ => jcur
  (check_exception r, jcur2, relinquish_jac_arg3 arg)

/-- presolvefn, the preconditioner-solve trampoline (`cvode_serial.c` lines
481-509). -/
def presolvefn
    (closure_presolvefn :
      JacArg BigArray → SpilsSolveArg → BigArray → Except MlExn Unit)
    (t : Float) (y fy r z : NVector) (gamma delta : Float) (lr : Int)
    (tmp : NVector) : Int × List BigArray :=
  let arg := make_jac_arg t y fy (wrap_nvector tmp)
  let solvearg := make_spils_solve_arg r gamma delta lr
  let zv := wrap_nvector z
  let rv := closure_presolvefn arg solvearg zv
  (check_exception rv,
   relinquish_jac_arg1 arg ++ relinquish_spils_solve_arg solvearg ++
     [relinquish_nvector_wrapping zv])

/-- jactimesfn, the Jacobian-times-vector trampoline (`cvode_serial.c`
lines 511-536). -/
def jactimesfn
    (closure_jactimesfn : JacArg BigArray → BigArray → BigArray → Except MlExn Unit)
    (v Jv : NVector) (t : Float) (y fy : NVector)
    (tmp : NVector) : Int × List BigArray :=
  let arg := make_jac_arg t y fy (wrap_nvector tmp)
  let varg := wrap_nvector v
  let jvarg := wrap_nvector Jv
  let r := closure_jactimesfn arg varg jvarg
  (check_exception r,
   relinquish_jac_arg1 arg ++
     [relinquish_nvector_wrapping varg, relinquish_nvector_wrapping jvarg])

end Callback

/-- Exception-to-integer protocol a trampoline must satisfy towards the
native library, relative to the outcome `r` of the host closure it ran. -/
def protocolOK {α : Type} (ret : Int) (r : Except MlExn α) : Prop :=
  (ret = 0 ∨ ret = 1 ∨ ret = -1)
  ∧ (∀ a, r = Except.ok a → ret = 0)
  ∧ (r = Except.error MlExn.RecoverableFailure → ret = 1)
  ∧ (∀ e, r = Except.error e → e ≠ MlExn.RecoverableFailure → ret = -1)

theorem protocolOK_check_exception {α : Type} (r : Except MlExn α) :
    protocolOK (check_exception r) r := by
  rcases r with e | a
  · by_cases he : e = MlExn.RecoverableFailure
    · subst he
      refine ⟨Or.inr (Or.inl (by simp [check_exception])), ?_, ?_, ?_⟩
      · intro a h; cases h
      · intro _; simp [check_exception]
      · intro e' h h'; cases h; exact absurd rfl h'
    · refine ⟨Or.inr (Or.inr (by simp [check_exception, he])), ?_, ?_, ?_⟩
      · intro a h; cases h
      · intro h; cases h; exact absurd rfl he
      · intro e' h h'; cases h; simp [check_exception, he]
  · exact ⟨Or.inl rfl, fun _ _ => rfl, by simp [check_exception], by simp [check_exception]⟩

/-- C2: every callback trampoline returns to the native library the integer
`check_exception` computes from the host closure's outcome: 0 on normal
return, 1 when the registered RecoverableFailure escaped, -1 on any other
exception — and, the return type being a plain integer, no host exception
propagates out of the trampoline. -/
theorem trampolines_exception_protocol :
    (∀ (cl : Float → BigArray → BigArray → Except MlExn Unit) (t : Float) (y ydot : NVector),
      protocolOK (Callback.f cl t y ydot).1 (cl t (wrap_nvector y) (wrap_nvector ydot)))
    ∧ (∀ (cl : Float → BigArray → BigArray → Except MlExn Unit) (t : Float) (y : NVector)
        (gout num_roots : Nat),
      protocolOK (Callback.roots cl t y gout num_roots).1
        (cl t (wrap_nvector y) { dataPtr := gout, dim := num_roots }))
    ∧ (∀ (cl : BigArray → BigArray → Except MlExn Unit) (y ewt : NVector),
      protocolOK (Callback.errw cl y ewt).1 (cl (wrap_nvector y) (wrap_nvector ewt)))
    ∧ (∀ (cl : JacArg (BigArray × BigArray × BigArray) → Nat → Except MlExn Unit)
        (t : Float) (y fy : NVector) (jac : Nat) (tmp1 tmp2 tmp3 : NVector),
      protocolOK (Callback.jacfn cl t y fy jac tmp1 tmp2 tmp3).1
        (cl (make_jac_arg t y fy (make_triple_tmp tmp1 tmp2 tmp3)) jac))
    ∧ (∀ (cl : Int → Int → JacArg (BigArray × BigArray × BigArray) → Nat → Except MlExn Unit)
        (mupper mlower : Int) (t : Float) (y fy : NVector) (jac : Nat)
        (tmp1 tmp2 tmp3 : NVector),
      protocolOK (Callback.bandjacfn cl mupper mlower t y fy jac tmp1 tmp2 tmp3).1
        (cl mupper mlower (make_jac_arg t y fy (make_triple_tmp tmp1 tmp2 tmp3)) jac))
    ∧ (∀ (cl : JacArg (BigArray × BigArray × BigArray) → Bool → Float → Except MlExn Bool)
        (t : Float) (y fy : NVector) (jok jcur : Bool) (gamma : Float)
        (tmp1 tmp2 tmp3 : NVector),
      protocolOK (Callback.presetupfn cl t y fy jok jcur gamma tmp1 tmp2 tmp3).1
        (cl (make_jac_arg t y fy (make_triple_tmp tmp1 tmp2 tmp3)) jok gamma))
    ∧ (∀ (cl : JacArg BigArray → SpilsSolveArg → BigArray → Except MlExn Unit)
        (t : Float) (y fy r z : NVector) (gamma delta : Float) (lr : Int) (tmp : NVector),
      protocolOK (Callback.presolvefn cl t y fy r z gamma delta lr tmp).1
        (cl (make_jac_arg t y fy (wrap_nvector tmp)) (make_spils_solve_arg r gamma delta lr)
          (wrap_nvector z)))
    ∧ (∀ (cl : JacArg BigArray → BigArray → BigArray → Except MlExn Unit)
        (v Jv : NVector) (t : Float) (y fy : NVector) (tmp : NVector),
      protocolOK (Callback.jactimesfn cl v Jv t y fy tmp).1
        (cl (make_jac_arg t y fy (wrap_nvector tmp)) (wrap_nvector v) (wrap_nvector Jv))) :=
  ⟨fun cl _ _ _ => protocolOK_check_exception (cl _ _ _),
   fun cl _ _ _ _ => protocolOK_check_exception (cl _ _ _),
   fun cl _ _ => protocolOK_check_exception (cl _ _),
   fun cl _ _ _ _ _ _ _ => protocolOK_check_exception (cl _ _),
   fun cl _ _ _ _ _ _ _ _ _ => protocolOK_check_exception (cl _ _ _ _),
   fun cl _ _ _ _ _ _ _ _ _ => protocolOK_check_exception (cl _ _ _),
   fun cl _ _ _ _ _ _ _ _ _ => protocolOK_check_exception (cl _ _ _),
   fun cl _ _ _ _ _ _ => protocolOK_check_exception (cl _ _ _)⟩

/-- Witness for C2: the rhs trampoline evaluated under a normally-returning
closure, a closure raising RecoverableFailure, and one raising another
exception. -/
theorem trampolines_exception_protocol_witness :
    (Callback.f (fun _ _ _ => Except.ok ()) 0 ⟨0, 2⟩ ⟨1, 2⟩).1 = 0
    ∧ (Callback.f (fun _ _ _ => Except.error MlExn.RecoverableFailure) 0 ⟨0, 2⟩ ⟨1, 2⟩).1 = 1
    ∧ (Callback.f (fun _ _ _ => Except.error (MlExn.other 7)) 0 ⟨0, 2⟩ ⟨1, 2⟩).1 = -1 :=
  ⟨(trampolines_exception_protocol.1 (fun _ _ _ => Except.ok ()) 0 ⟨0, 2⟩ ⟨1, 2⟩).2.1 () rfl,
   (trampolines_exception_protocol.1 (fun _ _ _ => Except.error MlExn.RecoverableFailure)
      0 ⟨0, 2⟩ ⟨1, 2⟩).2.2.1 rfl,
   (trampolines_exception_protocol.1 (fun _ _ _ => Except.error (MlExn.other 7))
      0 ⟨0, 2⟩ ⟨1, 2⟩).2.2.2 (MlExn.other 7) rfl (by decide)⟩

/-- A bigarray aliases an NVector's storage: same data pointer (no element
copy) and the full vector length visible. -/
def aliases (b : BigArray) (v : NVector) : Prop :=
  b.dataPtr = v.dataPtr ∧ b.dim = v.length

/-- All wrapper headers in the list have been invalidated (length zero). -/
def invalidated (l : List BigArray) : Prop :=
  ∀ b ∈ l, b.dim = 0

theorem relinquish_dim (b : BigArray) : (relinquish_nvector_wrapping b).dim = 0 := rfl

/-- C5: the bigarray a trampoline passes to the host closure aliases the
NVector's own storage (data pointer shared, no element copy), and after the
closure returns every wrapper created by any of the eight trampolines has
had its length set to zero. -/
theorem trampolines_wrap_and_invalidate :
    (∀ v : NVector, aliases (wrap_nvector v) v)
    ∧ (∀ (cl : Float → BigArray → BigArray → Except MlExn Unit) (t : Float) (y ydot : NVector),
      invalidated (Callback.f cl t y ydot).2)
    ∧ (∀ (cl : Float → BigArray → BigArray → Except MlExn Unit) (t : Float) (y : NVector)
        (gout num_roots : Nat), invalidated (Callback.roots cl t y gout num_roots).2)
    ∧ (∀ (cl : BigArray → BigArray → Except MlExn Unit) (y ewt : NVector),
      invalidated (Callback.errw cl y ewt).2)
    ∧ (∀ (cl : JacArg (BigArray × BigArray × BigArray) → Nat → Except MlExn Unit)
        (t : Float) (y fy : NVector) (jac : Nat) (tmp1 tmp2 tmp3 : NVector),
      invalidated (Callback.jacfn cl t y fy jac tmp1 tmp2 tmp3).2)
    ∧ (∀ (cl : Int → Int → JacArg (BigArray × BigArray × BigArray) → Nat → Except MlExn Unit)
        (mupper mlower : Int) (t : Float) (y fy : NVector) (jac : Nat)
        (tmp1 tmp2 tmp3 : NVector),
      invalidated (Callback.bandjacfn cl mupper mlower t y fy jac tmp1 tmp2 tmp3).2)
    ∧ (∀ (cl : JacArg (BigArray × BigArray × BigArray) → Bool → Float → Except MlExn Bool)
        (t : Float) (y fy : NVector) (jok jcur : Bool) (gamma : Float)
        (tmp1 tmp2 tmp3 : NVector),
      invalidated (Callback.presetupfn cl t y fy jok jcur gamma tmp1 tmp2 tmp3).2.2)
    ∧ (∀ (cl : JacArg BigArray → SpilsSolveArg → BigArray → Except MlExn Unit)
        (t : Float) (y fy r z : NVector) (gamma delta : Float) (lr : Int) (tmp : NVector),
      invalidated (Callback.presolvefn cl t y fy r z gamma delta lr tmp).2)
    ∧ (∀ (cl : JacArg BigArray → BigArray → BigArray → Except MlExn Unit)
        (v Jv : NVector) (t : Float) (y fy : NVector) (tmp : NVector),
      invalidated (Callback.jactimesfn cl v Jv t y fy tmp).2) := by
  refine ⟨fun v => ⟨rfl, rfl⟩, ?_, ?_, ?_, ?_, ?_, ?_, ?_, ?_⟩ <;>
    · intros
      intro b hb
      simp only [Callback.f, Callback.roots, Callback.errw, Callback.jacfn,
        Callback.bandjacfn, Callback.presetupfn, Callback.presolvefn, Callback.jactimesfn,
        relinquish_jac_arg3, relinquish_jac_arg1, relinquish_spils_solve_arg,
        List.mem_append, List.mem_cons, List.not_mem_nil, or_false, or_assoc] at hb
      rcases hb with rfl | rfl | rfl | rfl | rfl <;> rfl

/-- Witness for C5: the rhs trampoline run on concrete vectors leaves both
wrappers it created with length zero, and the wrapper built for the
closure aliases the vector's storage. -/
theorem trampolines_wrap_and_invalidate_witness :
    ({ dataPtr := 5, dim := 0 } : BigArray).dim = 0
    ∧ aliases (wrap_nvector ⟨5, 3⟩) ⟨5, 3⟩
    ∧ (Callback.f (fun _ _ _ => Except.ok ()) 0 ⟨5, 3⟩ ⟨6, 3⟩).2 =
        [{ dataPtr := 5, dim := 0 }, { dataPtr := 6, dim := 0 }] :=
  ⟨trampolines_wrap_and_invalidate.2.1 (fun _ _ _ => Except.ok ()) 0 ⟨5, 3⟩ ⟨6, 3⟩
      { dataPtr := 5, dim := 0 } (by decide),
   trampolines_wrap_and_invalidate.1 ⟨5, 3⟩, by decide⟩

/-! ### Session data, finalizer and freeing

`struct ml_cvode_data` from `cvode_serial.c` (lines 101-116).  The
`value*` closure fields (generational global roots) and the C pointers
`cvode_mem` / `err_file` are all nullable pointers, modelled as
`Option Nat`.  `cvode_ml.c`'s `struct cvode_ml_data` and its finalizer
(lines 62-104) are the same shape with one extra closure (`errw`); the
serial variant is embedded here. -/

structure MlCvodeData where
  cvode_mem : Option Nat
  neq : Nat
  num_roots : Nat
  closure_rhsfn : Option Nat
  closure_rootsfn : Option Nat
  closure_errh : Option Nat
  closure_jacfn : Option Nat
  closure_bandjacfn : Option Nat
  closure_presetupfn : Option Nat
  closure_presolvefn : Option Nat
  closure_jactimesfn : Option Nat
  err_file : Option Nat
deriving DecidableEq

/-- Observable side effects of one finalizer run: the generational global
roots removed (`caml_remove_generational_global_root`), the cvode_mem
blocks freed (`CVodeFree`), and the error files closed (`fclose`). -/
structure FinalizeEffects where
  rootsRemoved : List Nat
  memsFreed : List Nat
  filesClosed : List Nat
deriving DecidableEq

/-- finalize_closure from `cvode_serial.c` (lines 120-126): when the field
is non-NULL, remove its generational global root and set it to NULL;
otherwise do nothing.  Returns the new field value and the removed roots. -/
def finalize_closure (c : Option Nat) : Option Nat × List Nat :=
  match c with
  | some r => (none, [r])
  | none => (none, [])

/-- CVodeFree as called by the finalizer (`if (data->cvode_mem != NULL)
CVodeFree(&data->cvode_mem);`).  The external SUNDIALS call frees the
block and writes NULL back through the pointer; when the field is already
NULL the call is skipped. -/
def cvodeFree (m : Option Nat) : Option Nat × List Nat :=
  match m with
  | some p => (none, [p])
  | none => (m, [])

/-- fclose step of the finalizer (`if (data->err_file != NULL) { fclose;
data->err_file = NULL; }`). -/
def fcloseErrFile (fp : Option Nat) : Option Nat × List Nat :=
  match fp with
  | some p => (none, [p])
  | none => (fp, [])

/-- finalize from `cvode_serial.c` (lines 128-161): unregister every
non-NULL closure root, free the cvode memory when present, close the
error file when open.  Returns the session as the finalizer leaves it and
the effects performed. -/
def finalize (d : MlCvodeData) : MlCvodeData × FinalizeEffects :=
  let r1 := finalize_closure d.closure_rhsfn
  let r2 := finalize_closure d.closure_rootsfn
  let r3 := finalize_closure d.closure_errh
  let r4 := finalize_closure d.closure_jacfn
  let r5 := finalize_closure d.closure_bandjacfn
  let r6 := finalize_closure d.closure_presetupfn
  let r7 := finalize_closure d.closure_presolvefn
  let r8 := finalize_closure d.closure_jactimesfn
  let rm := cvodeFree d.cvode_mem
  let rf := fcloseErrFile d.err_file
  ({ d with
      closure_rhsfn := r1.1, closure_rootsfn := r2.1, closure_errh := r3.1,
      closure_jacfn := r4.1, closure_bandjacfn := r5.1, closure_presetupfn := r6.1,
      closure_presolvefn := r7.1, closure_jactimesfn := r8.1,
      cvode_mem := rm.1, err_file := rf.1 },
   { rootsRemoved := r1.2 ++ r2.2 ++ r3.2 ++ r4.2 ++ r5.2 ++ r6.2 ++ r7.2 ++ r8.2,
     memsFreed := rm.2, filesClosed := rf.2 })

/-- c_free from `cvode_serial.c` (lines 779-785): run the finalizer, then
`Store_field(vdata, 1, NULL)` — field 1 of the custom block is the start
of the data part, i.e. `cvode_mem`. -/
def c_free (d : MlCvodeData) : MlCvodeData :=
  let d1 := (finalize d).1
  { d1 with cvode_mem := none }

theorem finalize_closure_fst (c : Option Nat) : (finalize_closure c).1 = none := by
  cases c <;> rfl

theorem finalize_closure_snd (c : Option Nat) : (finalize_closure c).2 = c.toList := by
  cases c <;> rfl

theorem cvodeFree_fst (m : Option Nat) : (cvodeFree m).1 = none := by
  cases m <;> rfl

theorem cvodeFree_snd (m : Option Nat) : (cvodeFree m).2 = m.toList := by
  cases m <;> rfl

theorem fcloseErrFile_fst (fp : Option Nat) : (fcloseErrFile fp).1 = none := by
  cases fp <;> rfl

theorem fcloseErrFile_snd (fp : Option Nat) : (fcloseErrFile fp).2 = fp.toList := by
  cases fp <;> rfl

/-- C4: one finalizer run removes exactly the roots of the non-NULL closure
fields and NULLs them, frees cvode_mem when non-NULL, closes the error
file when open — and because every field is NULL afterwards, a second run
(whether a second `finalize` or a finalizer following an explicit
`c_free`) removes no root, frees no memory and closes no file. -/
theorem finalize_idempotent (d : MlCvodeData) :
    ((finalize d).1.closure_rhsfn = none ∧ (finalize d).1.closure_rootsfn = none
      ∧ (finalize d).1.closure_errh = none ∧ (finalize d).1.closure_jacfn = none
      ∧ (finalize d).1.closure_bandjacfn = none ∧ (finalize d).1.closure_presetupfn = none
      ∧ (finalize d).1.closure_presolvefn = none ∧ (finalize d).1.closure_jactimesfn = none
      ∧ (finalize d).1.cvode_mem = none ∧ (finalize d).1.err_file = none)
    ∧ (finalize d).2 =
        { rootsRemoved :=
            d.closure_rhsfn.toList ++ d.closure_rootsfn.toList ++ d.closure_errh.toList ++
            d.closure_jacfn.toList ++ d.closure_bandjacfn.toList ++
            d.closure_presetupfn.toList ++ d.closure_presolvefn.toList ++
            d.closure_jactimesfn.toList,
          memsFreed := d.cvode_mem.toList,
          filesClosed := d.err_file.toList }
    ∧ (finalize (finalize d).1).2 = { rootsRemoved := [], memsFreed := [], filesClosed := [] }
    ∧ (finalize (c_free d)).2 = { rootsRemoved := [], memsFreed := [], filesClosed := [] } := by
  refine ⟨⟨?_, ?_, ?_, ?_, ?_, ?_, ?_, ?_, ?_, ?_⟩, ?_, ?_, ?_⟩ <;>
    simp [finalize, c_free, finalize_closure_fst, finalize_closure_snd,
      cvodeFree_fst, cvodeFree_snd, fcloseErrFile_fst, fcloseErrFile_snd]

/-- cvode_data_from_ml from `cvode_serial.c` (lines 181-189): raises
`Failure "This session has been freed"` via `caml_failwith` exactly when
the session's `cvode_mem` field is NULL, and otherwise hands the data
back. -/
def cvode_data_from_ml (d : MlCvodeData) : Except HostExn MlCvodeData :=
  if d.cvode_mem = none then .error (.Failure "This session has been freed")
  else .ok d

/-- C8: `cvode_data_from_ml` raises `Failure "This session has been freed"`
exactly when `cvode_mem` is NULL, succeeds otherwise, and after `c_free`
every access through it raises that failure instead of touching freed
memory. -/
theorem cvode_data_from_ml_freed (d : MlCvodeData) :
    (cvode_data_from_ml d = .error (.Failure "This session has been freed")
      ↔ d.cvode_mem = none)
    ∧ (d.cvode_mem ≠ none → cvode_data_from_ml d = .ok d)
    ∧ cvode_data_from_ml (c_free d) = .error (.Failure "This session has been freed") := by
  refine ⟨?_, ?_, ?_⟩
  · by_cases h : d.cvode_mem = none <;> simp [cvode_data_from_ml, h]
  · intro h; simp [cvode_data_from_ml, h]
  · simp [cvode_data_from_ml, c_free]

/-- A sample live session used by concrete witnesses. -/
def sampleSession : MlCvodeData :=
  { cvode_mem := some 1, neq := 4, num_roots := 0,
    closure_rhsfn := some 10, closure_rootsfn := none, closure_errh := none,
    closure_jacfn := none, closure_bandjacfn := none, closure_presetupfn := none,
    closure_presolvefn := none, closure_jactimesfn := none, err_file := none }

/-- Witness for C8: on a live session the accessor succeeds; after freeing
it raises the recorded failure. -/
theorem cvode_data_from_ml_freed_witness :
    cvode_data_from_ml sampleSession = .ok sampleSession
    ∧ cvode_data_from_ml (c_free sampleSession) =
        .error (.Failure "This session has been freed") :=
  ⟨(cvode_data_from_ml_freed sampleSession).2.1 (by decide),
   (cvode_data_from_ml_freed sampleSession).2.2⟩

/-! ### Solver-step stubs -/

/-- Result variant of a solver step, in the order of
`VARIANT_SOLVER_RESULT_CONTINUE` (0), `ROOTSFOUND` (1),
`STOPTIMEREACHED` (2) from `cvode_ml.h` / `cvode_serial.h`. -/
inductive SolverResult where
  | Continue
  | RootsFound
  | StopTimeReached
deriving DecidableEq

/-- solver from `cvode_serial.c` (lines 874-912), identical in
`cvode_ml_nvec.c` (lines 576-611): fetch the session (raising if freed),
wrap the caller's bigarray `y` as a serial NVector, call `CVode` with
itask `CV_ONE_STEP` when `onestep` and `CV_NORMAL` otherwise, check the
returned flag, and on success return the pair of the time reached and the
variant decoding of the flag.  The external `CVode` call is the oracle
parameter `cvode`, mapping `(tout, y_nv, itask)` to its return flag and
the time `t` it writes back. -/
def solver (cvode : Float → NVector → Int → Int × Float) (d : MlCvodeData)
    (nextt : Float) (y : BigArray) (onestep : Bool) :
    Except HostExn (Float × SolverResult) :=
  match cvode_data_from_ml d with
  | .error e => .error e
  | .ok _ =>
    let y_nv := vectorize_bigarray y
    let ft := cvode nextt y_nv (if onestep then CV_ONE_STEP else CV_NORMAL)
    match check_flag "CVode" ft.1 with
    | .error e => .error e
    | .ok _ =>
      .ok (ft.2,
        if ft.1 = CV_ROOT_RETURN then SolverResult.RootsFound
        else if ft.1 = CV_TSTOP_RETURN then SolverResult.StopTimeReached
        else SolverResult.Continue)

/-- c_advance from `cvode_serial.c` (lines 914-918); `c_ba_normal` /
`c_nvec_normal` in `cvode_ml_nvec.c` (lines 613-617) are the same call
with `onestep = 0`. -/
def c_advance (cvode : Float → NVector → Int → Int × Float) (d : MlCvodeData)
    (nextt : Float) (y : BigArray) : Except HostExn (Float × SolverResult) :=
  solver cvode d nextt y false

/-- c_step from `cvode_serial.c` (lines 920-924); `c_ba_one_step` /
`c_nvec_one_step` in `cvode_ml_nvec.c` (lines 619-623) are the same call
with `onestep = 1`. -/
def c_step (cvode : Float → NVector → Int → Int × Float) (d : MlCvodeData)
    (nextt : Float) (y : BigArray) : Except HostExn (Float × SolverResult) :=
  solver cvode d nextt y true

/-- C3: a successful solver step returns the time written back by `CVode`
paired with `RootsFound` exactly on flag `CV_ROOT_RETURN`,
`StopTimeReached` exactly on `CV_TSTOP_RETURN` and `Continue` on every
other non-error flag; `c_step` consults `CVode` at itask `CV_ONE_STEP` and
`c_advance` at `CV_NORMAL`. -/
theorem solver_step_classification (cvode : Float → NVector → Int → Int × Float)
    (d : MlCvodeData) (nextt : Float) (y : BigArray) :
    (∀ (onestep : Bool) (t : Float) (res : SolverResult),
      solver cvode d nextt y onestep = .ok (t, res) →
        t = (cvode nextt (vectorize_bigarray y)
              (if onestep then CV_ONE_STEP else CV_NORMAL)).2
        ∧ (res = SolverResult.RootsFound ↔
            (cvode nextt (vectorize_bigarray y)
              (if onestep then CV_ONE_STEP else CV_NORMAL)).1 = CV_ROOT_RETURN)
        ∧ (res = SolverResult.StopTimeReached ↔
            (cvode nextt (vectorize_bigarray y)
              (if onestep then CV_ONE_STEP else CV_NORMAL)).1 = CV_TSTOP_RETURN)
        ∧ ((cvode nextt (vectorize_bigarray y)
              (if onestep then CV_ONE_STEP else CV_NORMAL)).1 ≠ CV_ROOT_RETURN →
            (cvode nextt (vectorize_bigarray y)
              (if onestep then CV_ONE_STEP else CV_NORMAL)).1 ≠ CV_TSTOP_RETURN →
            res = SolverResult.Continue))
    ∧ (c_step cvode d nextt y =
        match cvode_data_from_ml d with
        | .error e => .error e
        | .ok _ =>
          let ft := cvode nextt (vectorize_bigarray y) CV_ONE_STEP
          match check_flag "CVode" ft.1 with
          | .error e => .error e
          | .ok _ =>
            .ok (ft.2,
              if ft.1 = CV_ROOT_RETURN then SolverResult.RootsFound
              else if ft.1 = CV_TSTOP_RETURN then SolverResult.StopTimeReached
              else SolverResult.Continue))
    ∧ (c_advance cvode d nextt y =
        match cvode_data_from_ml d with
        | .error e => .error e
        | .ok _ =>
          let ft := cvode nextt (vectorize_bigarray y) CV_NORMAL
          match check_flag "CVode" ft.1 with
          | .error e => .error e
          | .ok _ =>
            .ok (ft.2,
              if ft.1 = CV_ROOT_RETURN then SolverResult.RootsFound
              else if ft.1 = CV_TSTOP_RETURN then SolverResult.StopTimeReached
              else SolverResult.Continue)) := by
  refine ⟨?_, rfl, rfl⟩
  intro onestep t res h
  unfold solver at h
  rcases hd : cvode_data_from_ml d with e | d'
  · rw [hd] at h; cases h
  · rw [hd] at h
    simp only at h
    rcases hc : check_flag "CVode"
        (cvode nextt (vectorize_bigarray y) (if onestep then CV_ONE_STEP else CV_NORMAL)).1
      with e | u
    · rw [hc] at h; cases h
    · rw [hc] at h
      simp only [Except.ok.injEq, Prod.mk.injEq] at h
      obtain ⟨ht, hres⟩ := h
      subst ht
      refine ⟨rfl, ?_, ?_, ?_⟩
      · constructor
        · intro hr
          by_contra hflag
          rw [← hres] at hr
          by_cases h2 : (cvode nextt (vectorize_bigarray y)
              (if onestep then CV_ONE_STEP else CV_NORMAL)).1 = CV_TSTOP_RETURN
          · rw [if_neg hflag, if_pos h2] at hr; cases hr
          · rw [if_neg hflag, if_neg h2] at hr; cases hr
        · intro hflag; rw [← hres]; simp [hflag]
      · constructor
        · intro hr
          by_contra hflag
          rw [← hres] at hr
          by_cases h2 : (cvode nextt (vectorize_bigarray y)
              (if onestep then CV_ONE_STEP else CV_NORMAL)).1 = CV_ROOT_RETURN
          · rw [if_pos h2] at hr; cases hr
          · rw [if_neg h2, if_neg hflag] at hr; cases hr
        · intro hflag
          rw [← hres]
          have hne : (CV_TSTOP_RETURN : Int) ≠ CV_ROOT_RETURN := by decide
          rw [hflag, if_neg hne, if_pos rfl]
      · intro h1 h2
        rw [← hres]
        simp [h1, h2]

/-- Witness for C3: a concrete oracle returning `CV_ROOT_RETURN` at time 7
makes a one-step call report `RootsFound` at that time. -/
theorem solver_step_classification_witness :
    solver (fun _ _ _ => (CV_ROOT_RETURN, 7.0)) sampleSession 1.0 ⟨0, 4⟩ true =
      .ok (7.0, SolverResult.RootsFound)
    ∧ SolverResult.RootsFound = SolverResult.RootsFound :=
  ⟨rfl,
   ((solver_step_classification (fun _ _ _ => (CV_ROOT_RETURN, 7.0)) sampleSession 1.0
      ⟨0, 4⟩).1 true 7.0 SolverResult.RootsFound rfl).2.1.mpr rfl⟩

/-! ### Error-handler callback and session initialisation -/

/-- The error_details record built by errh, with its four fields in the
order `RECORD_ERROR_DETAILS_ERROR_CODE`, `MODULE_NAME`, `FUNCTION_NAME`,
`ERROR_MESSAGE` (`cvode_ml.h` lines 218-221). -/
structure ErrorDetails where
  error_code : Int
  module_name : String
  function_name : String
  error_message : String
deriving DecidableEq

/-- caml_copy_string: allocates a fresh host string with the same
characters as the C string (content copy; the new block is distinct from
every existing one, which is a heap property outside this embedding). -/
def caml_copy_string (s : String) : String :=
  String.mk s.data

/-- errh from `cvode_ml.c` (lines 264-285) / `cvode_serial.c` (lines
287-308): build a four-field record from the error code and fresh copies
of the module name, function name and message, and pass it to the
registered closure_errh.  The record delivered to the closure is
returned. -/
def errh (error_code : Int) (mod func msg : String) : ErrorDetails :=
  { error_code := error_code,
    module_name := caml_copy_string mod,
    function_name := caml_copy_string func,
    error_message := caml_copy_string msg }

/-- Integration tolerances installed in a cvode_mem: `CVodeSVtolerances`
(scalar relative, vector absolute) or `CVodeSStolerances` (both scalar). -/
inductive Tolerances where
  | SV (reltol : Float) (abstol : List Float)
  | SS (reltol : Float) (abstol : Float)

/-- Slots of the external `cvode_mem` structure that the embedded stubs
observe: whether the binding's errh trampoline is installed as the
library's error-handler function (`CVodeSetErrHandlerFn`), and which
tolerances are installed. -/
structure CvodeMem where
  ehfun_set : Bool
  tolerances : Option Tolerances

/-- CVodeSetErrHandlerFn from the external SUNDIALS library: records
whether a non-NULL handler function (always the binding's errh) is
installed. -/
def CVodeSetErrHandlerFn (mem : CvodeMem) (installed : Bool) : CvodeMem :=
  { mem with ehfun_set := installed }

/-- c_enable_err_handler_fn from `cvode_ml.c` (lines 287-296): install errh
with the session as `eh_data`.  (`CVodeSetErrHandlerFn` returns
`CV_SUCCESS` on a live session, so the `CHECK_FLAG` raises nothing.) -/
def c_enable_err_handler_fn (mem : CvodeMem) : CvodeMem :=
  CVodeSetErrHandlerFn mem true

/-- c_disable_err_handler_fn from `cvode_ml.c` (lines 298-307): install
NULL, restoring the library default. -/
def c_disable_err_handler_fn (mem : CvodeMem) : CvodeMem :=
  CVodeSetErrHandlerFn mem false

/-- Modelled from the spec: the external SUNDIALS library invokes the
installed error-handler function on every error it reports, and invokes
nothing user-visible when none is installed (`CVodeSetErrHandlerFn` with
NULL restores the default stderr handler).  The value returned is the
record errh delivers to the registered closure, or `none` when the
closure is not invoked. -/
def reportError (mem : CvodeMem) (error_code : Int) (mod func msg : String) :
    Option ErrorDetails :=
  if mem.ehfun_set then some (errh error_code mod func msg) else none

/-- C6: with the handler enabled, every reported error invokes the closure
with a record of exactly the four fields — the error code and content
copies of the module name, function name and message (`caml_copy_string`
preserves content); with the handler disabled, the closure is not
invoked. -/
theorem err_handler_lifecycle (mem : CvodeMem) (code : Int) (mod func msg : String) :
    reportError (c_enable_err_handler_fn mem) code mod func msg =
      some { error_code := code, module_name := caml_copy_string mod,
             function_name := caml_copy_string func, error_message := caml_copy_string msg }
    ∧ caml_copy_string mod = mod
    ∧ reportError (c_disable_err_handler_fn mem) code mod func msg = none :=
  ⟨rfl, rfl, rfl⟩

/-- Flags returned by the external library calls made during session
initialisation; the oracle for one `c_init` / `c_ba_init` run. -/
structure LibFlags where
  cvodeInitFlag : Int
  rootInitFlag : Int
  tolFlag : Int

/-- The absolute-tolerance vector built by the loop in `c_init`
(`cvode_serial.c` lines 705-709): `NV_Ith_S(abstol, i) = RCONST(1.0e-8)`
for every `i < neq`. -/
def default_abstol : Nat → List Float
  | 0 => []
  | n + 1 => 1.0e-8 :: default_abstol n

/-- CVodeSVtolerances from the external SUNDIALS library: install
scalar-relative / vector-absolute tolerances. -/
def CVodeSVtolerances (mem : CvodeMem) (reltol : Float) (abstol : List Float) : CvodeMem :=
  { mem with tolerances := some (.SV reltol abstol) }

/-- CVodeSStolerances from the external SUNDIALS library: install scalar
tolerances. -/
def CVodeSStolerances (mem : CvodeMem) (reltol abstol : Float) : CvodeMem :=
  { mem with tolerances := some (.SS reltol abstol) }

/-- c_init from `cvode_serial.c` (lines 629-715), reduced to the cvode_mem
slots this development observes: the calls to `CVodeInit`,
`CVodeRootInit` and `CVodeSVtolerances` are represented by their return
flags (checked exactly as the stub checks them), and the final step
installs the default tolerances — relative `RCONST(1.0e-4)` and the
uniform absolute vector of `RCONST(1.0e-8)` over the `neq` entries —
before the session is returned. -/
def c_init (env : LibFlags) (neq : Nat) : Except HostExn CvodeMem :=
  match check_flag "CVodeInit" env.cvodeInitFlag with
  | .error e => .error e
  | .ok _ =>
    match check_flag "CVodeRootInit" env.rootInitFlag with
    | .error e => .error e
    | .ok _ =>
      let mem0 : CvodeMem := { ehfun_set := false, tolerances := none }
      let abstol := default_abstol neq
      let mem1 := CVodeSVtolerances mem0 (1.0e-4) abstol
      match check_flag "CVodeSVtolerances" env.tolFlag with
      | .error e => .error e
      | .ok _ => .ok mem1

/-- c_ba_init, the `CVTYPE(init)` stub of `cvode_ml_nvec.c` (lines 455-540)
under `CVODE_ML_BIGARRAYS`, reduced the same way: `CVodeRootInit` is only
called when `num_roots > 0`, and the default tolerances are installed
with `CVodeSStolerances(cvode_mem, RCONST(1.0e-4), RCONST(1.0e-8))`. -/
def c_ba_init (env : LibFlags) (num_roots : Nat) : Except HostExn CvodeMem :=
  match check_flag "CVodeInit" env.cvodeInitFlag with
  | .error e => .error e
  | .ok _ =>
    match (if num_roots > 0 then check_flag "CVodeRootInit" env.rootInitFlag
           else .ok ()) with
    | .error e => .error e
    | .ok _ =>
      let mem0 : CvodeMem := { ehfun_set := false, tolerances := none }
      let mem1 := CVodeSStolerances mem0 (1.0e-4) (1.0e-8)
      match check_flag "CVodeSStolerances" env.tolFlag with
      | .error e => .error e
      | .ok _ => .ok mem1

theorem default_abstol_replicate (n : Nat) :
    default_abstol n = List.replicate n 1.0e-8 := by
  induction n with
  | zero => rfl
  | succ n ih => simp [default_abstol, ih, List.replicate_succ]

/-- C10: every session returned by the init stubs already carries the
default tolerances — relative 1.0e-4 and absolute 1.0e-8, as a uniform
vector over the `neq` entries in the serial interface and as scalars in
the bigarray/nvec interface. -/
theorem init_default_tolerances (env : LibFlags) (neq num_roots : Nat) :
    (∀ mem, c_init env neq = .ok mem →
      mem.tolerances = some (Tolerances.SV 1.0e-4 (List.replicate neq 1.0e-8)))
    ∧ (∀ mem, c_ba_init env num_roots = .ok mem →
      mem.tolerances = some (Tolerances.SS 1.0e-4 1.0e-8)) := by
  constructor
  · intro mem h
    unfold c_init at h
    rcases h1 : check_flag "CVodeInit" env.cvodeInitFlag with e | u
    · rw [h1] at h; cases h
    · rw [h1] at h
      rcases h2 : check_flag "CVodeRootInit" env.rootInitFlag with e | u
      · rw [h2] at h; cases h
      · rw [h2] at h
        rcases h3 : check_flag "CVodeSVtolerances" env.tolFlag with e | u
        · rw [h3] at h; cases h
        · rw [h3] at h
          cases h
          simp [CVodeSVtolerances, default_abstol_replicate]
  · intro mem h
    unfold c_ba_init at h
    rcases h1 : check_flag "CVodeInit" env.cvodeInitFlag with e | u
    · rw [h1] at h; cases h
    · rw [h1] at h
      rcases h2 : (if num_roots > 0 then check_flag "CVodeRootInit" env.rootInitFlag
          else Except.ok ()) with e | u
      · rw [h2] at h; cases h
      · rw [h2] at h
        rcases h3 : check_flag "CVodeSStolerances" env.tolFlag with e | u
        · rw [h3] at h; cases h
        · rw [h3] at h
          cases h
          rfl

/-- Witness for C10: with all library calls succeeding, a fresh serial
session carries the uniform SV tolerances and a fresh bigarray/nvec
session the scalar SS tolerances. -/
theorem init_default_tolerances_witness :
    ({ ehfun_set := false,
       tolerances := some (Tolerances.SV 1.0e-4 (default_abstol 3)) } : CvodeMem).tolerances =
      some (Tolerances.SV 1.0e-4 (List.replicate 3 1.0e-8))
    ∧ ({ ehfun_set := false,
         tolerances := some (Tolerances.SS 1.0e-4 1.0e-8) } : CvodeMem).tolerances =
      some (Tolerances.SS 1.0e-4 1.0e-8) :=
  ⟨(init_default_tolerances ⟨0, 0, 0⟩ 3 0).1 _ rfl,
   (init_default_tolerances ⟨0, 0, 0⟩ 3 0).2 _ rfl⟩

/-! ### Dense and banded matrix accessors

`DlsMat` from the external SUNDIALS `sundials_direct.h`: column-major
storage with `DENSE_ELEM(A,i,j) = A->cols[j][i]` and
`BAND_ELEM(A,i,j) = A->cols[j][(i)-(j)+(A)->s_mu]`.  The storage is
modelled as the function `cols` from column index and storage row index
to the stored value; `CHECK_MATRIX_ACCESS` is defined to 1 in
`cvode_ml.h` (line 27), so the checked accessors are compiled with their
bounds tests. -/

structure DlsMat where
  M : Int
  N : Int
  mu : Int
  ml : Int
  smu : Int
  cols : Int → Int → Float

/-- DENSE_ELEM from `sundials_direct.h`. -/
def DENSE_ELEM (m : DlsMat) (i j : Int) : Float := m.cols j i

/-- BAND_ELEM from `sundials_direct.h`. -/
def BAND_ELEM (m : DlsMat) (i j : Int) : Float := m.cols j (i - j + m.smu)

/-- c_densematrix_get from `cvode_ml.c` (lines 1154-1169). -/
def c_densematrix_get (m : DlsMat) (i j : Int) : Except HostExn Float :=
  if i < 0 ∨ i ≥ m.M then .error (.InvalidArgument "Densematrix.get: invalid i")
  else if j < 0 ∨ j ≥ m.N then .error (.InvalidArgument "Densematrix.get: invalid j")
  else .ok (DENSE_ELEM m i j)

/-- c_densematrix_set from `cvode_ml.c` (lines 1171-1186):
`DENSE_ELEM(m, i, j) = Double_val(v)`, i.e. storage cell `cols[j][i]` is
overwritten. -/
def c_densematrix_set (m : DlsMat) (i j : Int) (v : Float) : Except HostExn DlsMat :=
  if i < 0 ∨ i ≥ m.M then .error (.InvalidArgument "Densematrix.set: invalid i")
  else if j < 0 ∨ j ≥ m.N then .error (.InvalidArgument "Densematrix.set: invalid j")
  else .ok { m with cols := fun j' i' => if j' = j ∧ i' = i then v else m.cols j' i' }

/-- c_bandmatrix_get from `cvode_ml.c` (lines 1386-1401). -/
def c_bandmatrix_get (m : DlsMat) (i j : Int) : Except HostExn Float :=
  if i < 0 ∨ i ≥ m.M then .error (.InvalidArgument "Bandmatrix.get: invalid i")
  else if j < 0 ∨ j ≥ m.N then .error (.InvalidArgument "Bandmatrix.get: invalid j")
  else .ok (BAND_ELEM m i j)

/-- c_bandmatrix_set from `cvode_ml.c` (lines 1403-1418):
`BAND_ELEM(m, i, j) = Double_val(v)`, i.e. storage cell
`cols[j][i - j + s_mu]` is overwritten. -/
def c_bandmatrix_set (m : DlsMat) (i j : Int) (v : Float) : Except HostExn DlsMat :=
  if i < 0 ∨ i ≥ m.M then .error (.InvalidArgument "Bandmatrix.set: invalid i")
  else if j < 0 ∨ j ≥ m.N then .error (.InvalidArgument "Bandmatrix.set: invalid j")
  else .ok { m with
    cols := fun j' k' => if j' = j ∧ k' = i - j + m.smu then v else m.cols j' k' }

/-- A band-matrix column handle as built by c_bandmatrix_col_get_col
(`cvode_ml.c` lines 1420-1443) with `CHECK_MATRIX_ACCESS`: the pointer
`BAND_COL(m, j) = m->cols[j] + s_mu` (modelled as the function from the
diagonal-relative offset to the stored value) together with the recorded
`mu` and `ml`. -/
structure BandCol where
  bcol : Int → Float
  mu : Int
  ml : Int

/-- BAND_COL_ELEM from `sundials_direct.h`:
`BAND_COL_ELEM(band_col_j, i, j) = band_col_j[(i)-(j)]`. -/
def BAND_COL_ELEM (b : BandCol) (i j : Int) : Float := b.bcol (i - j)

/-- c_bandmatrix_col_get from `cvode_ml.c` (lines 1445-1463). -/
def c_bandmatrix_col_get (b : BandCol) (i j : Int) : Except HostExn Float :=
  if i < j - b.mu ∨ i > j + b.ml then
    .error (.InvalidArgument "Bandmatrix.Col.get: invalid i")
  else .ok (BAND_COL_ELEM b i j)

/-- c_bandmatrix_col_set from `cvode_ml.c` (lines 1465-1485):
`BAND_COL_ELEM(bcol, i, j) = Double_val(ve)`. -/
def c_bandmatrix_col_set (b : BandCol) (i j : Int) (v : Float) : Except HostExn BandCol :=
  if i < j - b.mu ∨ i > j + b.ml then
    .error (.InvalidArgument "Bandmatrix.Col.set: invalid i")
  else .ok { b with bcol := fun k => if k = i - j then v else b.bcol k }

/-- c_densematrix_direct_get from `cvode_ml.c` (lines 1217-1225): plain
`DDENSEMAT(va)[j][i]` with no bounds check of any kind; the direct matrix
is a bare `realtype**`, modelled as the storage function itself. -/
def c_densematrix_direct_get (a : Int → Int → Float) (i j : Int) : Float :=
  a j i

/-- c_densematrix_direct_set from `cvode_ml.c` (lines 1227-1237): plain
`DDENSEMAT(va)[j][i] = Double_val(vv)` with no bounds check. -/
def c_densematrix_direct_set (a : Int → Int → Float) (i j : Int) (v : Float) :
    Int → Int → Float :=
  fun j' i' => if j' = j ∧ i' = i then v else a j' i'

theorem densematrix_get_spec (m : DlsMat) (i j : Int) :
    ((i < 0 ∨ i ≥ m.M ∨ j < 0 ∨ j ≥ m.N) →
      ∃ msg, c_densematrix_get m i j = .error (.InvalidArgument msg))
    ∧ (0 ≤ i → i < m.M → 0 ≤ j → j < m.N →
      c_densematrix_get m i j = .ok (m.cols j i)) := by
  constructor
  · intro h
    unfold c_densematrix_get
    by_cases h1 : i < 0 ∨ i ≥ m.M
    · rw [if_pos h1]; exact ⟨_, rfl⟩
    · have h2 : j < 0 ∨ j ≥ m.N := by omega
      rw [if_neg h1, if_pos h2]; exact ⟨_, rfl⟩
  · intro hi0 hiM hj0 hjN
    unfold c_densematrix_get
    rw [if_neg (by omega), if_neg (by omega)]
    rfl

theorem densematrix_set_spec (m : DlsMat) (i j : Int) (v : Float) :
    ((i < 0 ∨ i ≥ m.M ∨ j < 0 ∨ j ≥ m.N) →
      ∃ msg, c_densematrix_set m i j v = .error (.InvalidArgument msg))
    ∧ (0 ≤ i → i < m.M → 0 ≤ j → j < m.N →
      ∃ m', c_densematrix_set m i j v = .ok m'
        ∧ DENSE_ELEM m' i j = v
        ∧ (∀ j' i', (j' ≠ j ∨ i' ≠ i) → m'.cols j' i' = m.cols j' i')) := by
  constructor
  · intro h
    unfold c_densematrix_set
    by_cases h1 : i < 0 ∨ i ≥ m.M
    · rw [if_pos h1]; exact ⟨_, rfl⟩
    · have h2 : j < 0 ∨ j ≥ m.N := by omega
      rw [if_neg h1, if_pos h2]; exact ⟨_, rfl⟩
  · intro hi0 hiM hj0 hjN
    refine ⟨{ m with cols := fun j' i' => if j' = j ∧ i' = i then v else m.cols j' i' },
      ?_, ?_, ?_⟩
    · unfold c_densematrix_set
      rw [if_neg (by omega), if_neg (by omega)]
    · simp [DENSE_ELEM]
    · intro j' i' hne
      have : ¬(j' = j ∧ i' = i) := by tauto
      simp [this]

theorem bandmatrix_get_spec (m : DlsMat) (i j : Int) :
    ((i < 0 ∨ i ≥ m.M ∨ j < 0 ∨ j ≥ m.N) →
      ∃ msg, c_bandmatrix_get m i j = .error (.InvalidArgument msg))
    ∧ (0 ≤ i → i < m.M → 0 ≤ j → j < m.N →
      c_bandmatrix_get m i j = .ok (m.cols j (i - j + m.smu))) := by
  constructor
  · intro h
    unfold c_bandmatrix_get
    by_cases h1 : i < 0 ∨ i ≥ m.M
    · rw [if_pos h1]; exact ⟨_, rfl⟩
    · have h2 : j < 0 ∨ j ≥ m.N := by omega
      rw [if_neg h1, if_pos h2]; exact ⟨_, rfl⟩
  · intro hi0 hiM hj0 hjN
    unfold c_bandmatrix_get
    rw [if_neg (by omega), if_neg (by omega)]
    rfl

theorem bandmatrix_set_spec (m : DlsMat) (i j : Int) (v : Float) :
    ((i < 0 ∨ i ≥ m.M ∨ j < 0 ∨ j ≥ m.N) →
      ∃ msg, c_bandmatrix_set m i j v = .error (.InvalidArgument msg))
    ∧ (0 ≤ i → i < m.M → 0 ≤ j → j < m.N →
      ∃ m', c_bandmatrix_set m i j v = .ok m'
        ∧ BAND_ELEM m' i j = v
        ∧ (∀ j' k', (j' ≠ j ∨ k' ≠ i - j + m.smu) → m'.cols j' k' = m.cols j' k')) := by
  constructor
  · intro h
    unfold c_bandmatrix_set
    by_cases h1 : i < 0 ∨ i ≥ m.M
    · rw [if_pos h1]; exact ⟨_, rfl⟩
    · have h2 : j < 0 ∨ j ≥ m.N := by omega
      rw [if_neg h1, if_pos h2]; exact ⟨_, rfl⟩
  · intro hi0 hiM hj0 hjN
    refine ⟨{ m with
        cols := fun j' k' => if j' = j ∧ k' = i - j + m.smu then v else m.cols j' k' },
      ?_, ?_, ?_⟩
    · unfold c_bandmatrix_set
      rw [if_neg (by omega), if_neg (by omega)]
    · simp [BAND_ELEM]
    · intro j' k' hne
      have : ¬(j' = j ∧ k' = i - j + m.smu) := by tauto
      simp [this]

theorem bandmatrix_col_spec (b : BandCol) (i j : Int) (v : Float) :
    ((i < j - b.mu ∨ i > j + b.ml) →
      (∃ msg, c_bandmatrix_col_get b i j = .error (.InvalidArgument msg))
      ∧ (∃ msg, c_bandmatrix_col_set b i j v = .error (.InvalidArgument msg)))
    ∧ (j - b.mu ≤ i → i ≤ j + b.ml →
      c_bandmatrix_col_get b i j = .ok (b.bcol (i - j))
      ∧ ∃ b', c_bandmatrix_col_set b i j v = .ok b'
          ∧ b'.bcol (i - j) = v
          ∧ (∀ k, k ≠ i - j → b'.bcol k = b.bcol k)) := by
  constructor
  · intro h
    constructor
    · unfold c_bandmatrix_col_get; rw [if_pos h]; exact ⟨_, rfl⟩
    · unfold c_bandmatrix_col_set; rw [if_pos h]; exact ⟨_, rfl⟩
  · intro h1 h2
    constructor
    · unfold c_bandmatrix_col_get
      rw [if_neg (by omega)]
      rfl
    · refine ⟨{ b with bcol := fun k => if k = i - j then v else b.bcol k }, ?_, ?_, ?_⟩
      · unfold c_bandmatrix_col_set
        rw [if_neg (by omega)]
      · simp
      · intro k hk; simp [hk]

theorem densematrix_direct_spec (a : Int → Int → Float) (i j : Int) (v : Float) :
    c_densematrix_direct_get a i j = a j i
    ∧ c_densematrix_direct_set a i j v j i = v
    ∧ (∀ j' i', (j' ≠ j ∨ i' ≠ i) → c_densematrix_direct_set a i j v j' i' = a j' i') := by
  refine ⟨rfl, by simp [c_densematrix_direct_set], ?_⟩
  intro j' i' hne
  have : ¬(j' = j ∧ i' = i) := by tauto
  simp [c_densematrix_direct_set, this]

/-- C9: with `CHECK_MATRIX_ACCESS` enabled, the dense and banded get/set
stubs raise `Invalid_argument` exactly outside `[0,M) × [0,N)` and
otherwise access exactly element `(i,j)` (storage cell `cols[j][i]`,
resp. `cols[j][i-j+s_mu]`); the band-column stubs raise outside
`[j - mu, j + ml]`; the direct dense accessors perform no bounds check at
all and always access cell `[j][i]`. -/
theorem matrix_access_checking (m : DlsMat) (b : BandCol) (a : Int → Int → Float)
    (i j : Int) (v : Float) :
    (((i < 0 ∨ i ≥ m.M ∨ j < 0 ∨ j ≥ m.N) →
        (∃ msg, c_densematrix_get m i j = .error (.InvalidArgument msg))
        ∧ (∃ msg, c_densematrix_set m i j v = .error (.InvalidArgument msg))
        ∧ (∃ msg, c_bandmatrix_get m i j = .error (.InvalidArgument msg))
        ∧ (∃ msg, c_bandmatrix_set m i j v = .error (.InvalidArgument msg)))
      ∧ (0 ≤ i → i < m.M → 0 ≤ j → j < m.N →
        c_densematrix_get m i j = .ok (DENSE_ELEM m i j)
        ∧ c_bandmatrix_get m i j = .ok (BAND_ELEM m i j)
        ∧ (∃ m', c_densematrix_set m i j v = .ok m'
            ∧ DENSE_ELEM m' i j = v
            ∧ ∀ j' i', (j' ≠ j ∨ i' ≠ i) → m'.cols j' i' = m.cols j' i')
        ∧ (∃ m', c_bandmatrix_set m i j v = .ok m'
            ∧ BAND_ELEM m' i j = v
            ∧ ∀ j' k', (j' ≠ j ∨ k' ≠ i - j + m.smu) → m'.cols j' k' = m.cols j' k')))
    ∧ (((i < j - b.mu ∨ i > j + b.ml) →
        (∃ msg, c_bandmatrix_col_get b i j = .error (.InvalidArgument msg))
        ∧ (∃ msg, c_bandmatrix_col_set b i j v = .error (.InvalidArgument msg)))
      ∧ (j - b.mu ≤ i → i ≤ j + b.ml →
        c_bandmatrix_col_get b i j = .ok (BAND_COL_ELEM b i j)
        ∧ ∃ b', c_bandmatrix_col_set b i j v = .ok b'
            ∧ BAND_COL_ELEM b' i j = v
            ∧ ∀ k, k ≠ i - j → b'.bcol k = b.bcol k))
    ∧ (c_densematrix_direct_get a i j = a j i
      ∧ c_densematrix_direct_set a i j v j i = v
      ∧ ∀ j' i', (j' ≠ j ∨ i' ≠ i) → c_densematrix_direct_set a i j v j' i' = a j' i') := by
  refine ⟨⟨?_, ?_⟩, ⟨?_, ?_⟩, densematrix_direct_spec a i j v⟩
  · intro h
    exact ⟨(densematrix_get_spec m i j).1 h, (densematrix_set_spec m i j v).1 h,
      (bandmatrix_get_spec m i j).1 h, (bandmatrix_set_spec m i j v).1 h⟩
  · intro hi0 hiM hj0 hjN
    obtain ⟨m1, hm1, hv1, hrest1⟩ := (densematrix_set_spec m i j v).2 hi0 hiM hj0 hjN
    obtain ⟨m2, hm2, hv2, hrest2⟩ := (bandmatrix_set_spec m i j v).2 hi0 hiM hj0 hjN
    exact ⟨(densematrix_get_spec m i j).2 hi0 hiM hj0 hjN,
      (bandmatrix_get_spec m i j).2 hi0 hiM hj0 hjN,
      ⟨m1, hm1, hv1, hrest1⟩, ⟨m2, hm2, hv2, hrest2⟩⟩
  · exact (bandmatrix_col_spec b i j v).1
  · intro h1 h2
    exact (bandmatrix_col_spec b i j v).2 h1 h2

/-- A sample dense 2×2 matrix used by the concrete witness. -/
def sampleMat : DlsMat :=
  { M := 2, N := 2, mu := 0, ml := 0, smu := 0, cols := fun _ _ => 3.5 }

/-- A sample band-column handle used by the concrete witness. -/
def sampleCol : BandCol :=
  { bcol := fun _ => 3.5, mu := 0, ml := 0 }

/-- Witness for C9: on a concrete 2×2 matrix, an in-range dense get reads
element `(0, 1)` and an out-of-range access raises `Invalid_argument`; a
direct get at the same out-of-range index goes through unchecked. -/
theorem matrix_access_checking_witness :
    c_densematrix_get sampleMat 0 1 = .ok (DENSE_ELEM sampleMat 0 1)
    ∧ (∃ msg, c_densematrix_get sampleMat (-1) 1 = .error (.InvalidArgument msg))
    ∧ c_densematrix_direct_get sampleMat.cols (-1) 1 = sampleMat.cols 1 (-1) := by
  refine ⟨?_, ?_, ?_⟩
  · exact ((matrix_access_checking sampleMat sampleCol sampleMat.cols 0 1 0).1.2
      (by decide) (by decide) (by decide) (by decide)).1
  · exact ((matrix_access_checking sampleMat sampleCol sampleMat.cols (-1) 1 0).1.1
      (by decide)).1
  · exact (matrix_access_checking sampleMat sampleCol sampleMat.cols (-1) 1 0).2.2.1

end SundialsML
